import Mathlib

/-!
# tvPowerControllerByAlexa: verification of `src/main.cpp`

The firmware is a single translation unit.  Its functions act on the global
`buf_display` (the globals `isConnectedWifi` and `state` are declared and
never used) and on peripherals: display, IR sender, WiFi radio, serial port,
Espalexa endpoint.  The embedding threads a `World` value through every
function: it holds the globals, the number of readings already taken from the
radio, and the ordered list of peripheral calls made so far (`trace`).
Whatever the radio answers is supplied from outside through an `Env`.

`connectWifi` is a total function (its loop counter is bounded).  The retry
loop of `setup` has no bound, so `setup` takes the number of `connectWifi`
calls to follow and reports whether it returned within them.
-/

namespace TvPowerController

/-! ## Data model -/

/-- Functions of the sketch that are handed to the endpoint as callbacks. -/
inductive Callback where
  | tvPowerChanged
  deriving DecidableEq, Repr

/-- One call to a peripheral or library, in the order the sketch makes them. -/
inductive Event where
  /-- Call `M5.begin(SerialEnable, I2CEnable, DisplayEnable)` -/
  | m5Begin (serialEnable i2cEnable displayEnable : Bool)
  /-- Call `M5.dis.displaybuff(buf_display)`, with the bytes of the buffer at the call -/
  | displaybuff (frame : List Nat)
  /-- Call `irsend.begin()` -/
  | irsendBegin
  /-- Call `irsend.sendNEC(data, nbits)` -/
  | sendNEC (data nbits : Nat)
  /-- Call `delay(ms)` -/
  | delay (ms : Nat)
  /-- Call `WiFi.mode(WIFI_STA)` -/
  | wifiModeSta
  /-- Call `WiFi.begin(ssid, pass)` -/
  | wifiBegin (ssid pass : String)
  /-- Call `WiFi.status()`, with whether it answered `WL_CONNECTED` -/
  | wifiStatus (connected : Bool)
  /-- Call `WiFi.disconnect()` -/
  | wifiDisconnect
  /-- Call `WiFi.scanNetworks()`, with the number it returned -/
  | wifiScanNetworks (n : Int)
  /-- Call `Serial.print(text)` -/
  | serialPrint (text : String)
  /-- Call `Serial.println(text)` -/
  | serialPrintln (text : String)
  /-- Call `Serial.print(n)` of an integer -/
  | serialPrintInt (n : Int)
  /-- Call `Serial.println(WiFi.localIP())` -/
  | serialPrintlnLocalIP
  /-- Call `Serial.print(WiFi.channel(i))` -/
  | serialPrintChannel (i : Nat)
  /-- Call `Serial.print(WiFi.RSSI(i))` -/
  | serialPrintRSSI (i : Nat)
  /-- Call `Serial.print((WiFi.encryptionType(i) == WIFI_AUTH_OPEN) ? " " : "*")` -/
  | serialPrintEncryption (i : Nat)
  /-- Call `Serial.print(WiFi.SSID(i))` -/
  | serialPrintSSID (i : Nat)
  /-- Call `espalexa.addDevice(name, callback)` -/
  | addDevice (name : String) (callback : Callback)
  /-- Call `espalexa.begin()` -/
  | espalexaBegin
  /-- Call `espalexa.loop()` -/
  | espalexaLoop
  deriving DecidableEq, Repr

/-- Globals of the sketch plus the record of what it did to the outside. -/
structure World where
  /-- Global `uint8_t buf_display[2 + 5 * 5 * 3]` -/
  buf_display : List Nat
  /-- Global `bool isConnectedWifi` (declared, never written) -/
  isConnectedWifi : Bool
  /-- Global `uint8_t state` (declared, never written) -/
  state : Nat
  /-- how many times `WiFi.status()` has been called -/
  statusReads : Nat
  /-- how many times `WiFi.scanNetworks()` has been called -/
  scans : Nat
  /-- peripheral calls made so far, oldest first -/
  trace : List Event
  deriving DecidableEq, Repr

/-- What the outside world answers, and the two strings of `config.h`
(`MY_SSID`, `MY_PASS`), which is not part of the sources. -/
structure Env where
  /-- String `SSID_WIFI = MY_SSID` -/
  ssid : String
  /-- String `PASS_WIFI = MY_PASS` -/
  pass : String
  /-- whether the `k`-th call of `WiFi.status()` (counted from 0) answers `WL_CONNECTED` -/
  status : Nat → Bool
  /-- what the `k`-th call of `WiFi.scanNetworks()` (counted from 0) returns -/
  scanNetworks : Nat → Int

/-- Modelled from the spec: `EspalexaDevice` belongs to the Espalexa library,
which is not part of the sources; the spec describes the device handed to the
callback as "a device reference exposing at least `getValue() -> bool`". -/
structure EspalexaDevice where
  /-- result of `getValue()` as tested by `if (d->getValue())` -/
  getValue : Bool
  deriving DecidableEq, Repr

/-- Constant `const uint64_t COM_TV_POWER_CHANGE = 0x210704FB` -/
def COM_TV_POWER_CHANGE : Nat := 0x210704FB

/-- Constant `const uint16_t SIZE_COM_TV_POWER_CHANGE = 32` -/
def SIZE_COM_TV_POWER_CHANGE : Nat := 32

/-- The globals as the C++ runtime sets them up before `setup()` runs:
`buf_display` zero-filled (static storage), `isConnectedWifi = false`, `state = 0`. -/
def World.boot : World :=
  { buf_display := List.replicate (2 + 5 * 5 * 3) 0
    isConnectedWifi := false
    state := 0
    statusReads := 0
    scans := 0
    trace := [] }

/-- Append one peripheral call to the record. -/
def emit (e : Event) (w : World) : World :=
  { w with trace := w.trace ++ [e] }

/-! ## `setBuff` -/

/-- Body of the `for` loop of `setBuff` for one value of `i`. -/
def setBuffCell (Rdata Gdata Bdata : Nat) (buf : List Nat) (i : Nat) : List Nat :=
  ((buf.set (2 + i * 3 + 0) Rdata).set (2 + i * 3 + 1) Gdata).set (2 + i * 3 + 2) Bdata

/-- The effect of `setBuff` on the array `buf_display`. -/
def setBuffBytes (Rdata Gdata Bdata : Nat) (buf : List Nat) : List Nat :=
  let buf := buf.set 0 0x05
  let buf := buf.set 1 0x05
  (List.range 25).foldl (setBuffCell Rdata Gdata Bdata) buf

/-- Function `void setBuff(uint8_t Rdata, uint8_t Gdata, uint8_t Bdata)` -/
def setBuff (Rdata Gdata Bdata : Nat) (w : World) : World :=
  { w with buf_display := setBuffBytes Rdata Gdata Bdata w.buf_display }

/-- Call of `M5.dis.displaybuff(buf_display)` -/
def displaybuff (w : World) : World :=
  emit (.displaybuff w.buf_display) w

/-! ## `connectWifi` -/

/-- The `while (WiFi.status() != WL_CONNECTED)` loop of `connectWifi`, entered
with the local `i`.  Returns the local `res` and the world at loop exit. -/
def connectLoop (env : Env) (i : Nat) (w : World) : Bool × World :=
  let connected := env.status w.statusReads
  let w := emit (.wifiStatus connected) { w with statusReads := w.statusReads + 1 }
  if connected then
    (true, w)
  else
    let w := emit (.delay 500) w
    let w := emit (.serialPrint ".") w
    if 20 < i then
      (false, w)
    else
      connectLoop env (i + 1) w
termination_by 21 - i
decreasing_by omega

/-- Function `bool connectWifi()` -/
def connectWifi (env : Env) (w : World) : Bool × World :=
  let w := emit .wifiModeSta w
  let w := emit (.wifiBegin env.ssid env.pass) w
  let w := emit (.serialPrintln "") w
  let w := emit (.serialPrintln "Connecting to WiFi") w
  let w := emit (.serialPrint "Connecting...") w
  let (res, w) := connectLoop env 0 w
  let w := emit (.serialPrintln "") w
  if res then
    let w := emit (.serialPrint "Connected to ") w
    let w := emit (.serialPrintln env.ssid) w
    let w := emit (.serialPrint "IP address: ") w
    let w := emit .serialPrintlnLocalIP w
    (res, w)
  else
    let w := emit (.serialPrintln "Connection failed.") w
    (res, w)

/-! ## `tvPowerChanged` -/

/-- One round of a blink loop: colour on, 500 ms, all off, 100 ms. -/
def blinkOnce (Rdata Gdata Bdata : Nat) (w : World) : World :=
  let w := setBuff Rdata Gdata Bdata w
  let w := displaybuff w
  let w := emit (.delay 500) w
  let w := setBuff 0x00 0x00 0x00 w
  let w := displaybuff w
  emit (.delay 100) w

/-- The loop `for (int i = 0; i < 5; i++)` around `blinkOnce`, as it occurs in
`tvPowerChanged` (green) and in `setup` (red). -/
def blink5 (Rdata Gdata Bdata : Nat) (w : World) : World :=
  (List.range 5).foldl (fun w _ => blinkOnce Rdata Gdata Bdata w) w

/-- Function `void tvPowerChanged(EspalexaDevice *d)`; `none` is the null pointer. -/
def tvPowerChanged (d : Option EspalexaDevice) (w : World) : World :=
  match d with
  | none => w
  | some d =>
    if d.getValue then
      let w := emit (.sendNEC COM_TV_POWER_CHANGE SIZE_COM_TV_POWER_CHANGE) w
      let w := emit (.serialPrintln "TV Power Changed!") w
      let w := blink5 0x00 0x40 0x00 w
      let w := setBuff 0x00 0x00 0x40 w
      displaybuff w
    else
      w

/-! ## `setup` and `loop` -/

/-- The inner `for (int i = 0; i < n; i++)` of the network listing, one round. -/
def printNetwork (w : World) (i : Nat) : World :=
  let w := emit (.serialPrintInt (i + 1)) w
  let w := emit (.serialPrint ": ") w
  let w := emit (.serialPrintChannel i) w
  let w := emit (.serialPrint "CH (") w
  let w := emit (.serialPrintRSSI i) w
  let w := emit (.serialPrint ")") w
  let w := emit (.serialPrintEncryption i) w
  let w := emit (.serialPrint "  ") w
  let w := emit (.serialPrintSSID i) w
  let w := emit (.serialPrintln "") w
  emit (.delay 10) w

/-- Body of `while (!connectWifi())` in `setup`: message, disconnect, scan,
listing, red blink. -/
def wifiFailed (env : Env) (w : World) : World :=
  let w := emit (.serialPrintln "Cannot connect to WiFi. Please check data and reset the ESP.") w
  let w := emit .wifiDisconnect w
  let n := env.scanNetworks w.scans
  let w := emit (.wifiScanNetworks n) { w with scans := w.scans + 1 }
  let w :=
    if n = 0 then
      emit (.serialPrintln "no networks found") w
    else
      let w := emit (.serialPrintInt n) w
      let w := emit (.serialPrintln " networks found\n") w
      (List.range n.toNat).foldl printNetwork w
  blink5 0x40 0x00 0x00 w

/-- The loop `while (!connectWifi()) { ... }` of `setup`.  The loop has no
bound in the source; `fuel` bounds the number of `connectWifi` calls followed.
The flag is `true` when the loop was left (a call succeeded) and `false` when
the fuel ran out with the loop still running. -/
def connectRetry (env : Env) : Nat → World → Bool × World
  | 0, w => (false, w)
  | fuel + 1, w =>
    let (ok, w) := connectWifi env w
    if ok then
      (true, w)
    else
      connectRetry env fuel (wifiFailed env w)

/-- What `setup` does before the retry loop. -/
def setupBoot (w : World) : World :=
  let w := emit (.m5Begin true false true) w
  let w := setBuff 0x40 0x40 0x40 w
  let w := displaybuff w
  let w := emit .irsendBegin w
  emit (.delay 100) w

/-- What `setup` does after the retry loop. -/
def setupConnected (w : World) : World :=
  let w := setBuff 0x00 0x00 0x40 w
  let w := displaybuff w
  let w := emit (.addDevice "Smart TV" .tvPowerChanged) w
  emit .espalexaBegin w

/-- Function `void setup()`.  The flag tells whether `setup` returned within `fuel`
calls of `connectWifi`; when it is `false` the world is the one reached so far. -/
def setup (env : Env) (fuel : Nat) (w : World) : Bool × World :=
  let w := setupBoot w
  let (left, w) := connectRetry env fuel w
  if left then
    (true, setupConnected w)
  else
    (false, w)

/-- Function `void loop()`.  `pending` lists the devices for which `espalexa.loop()`
invokes the registered callback during this call, in arrival order. -/
def loop (pending : List (Option EspalexaDevice)) (w : World) : World :=
  let w := emit .espalexaLoop w
  let w := pending.foldl (fun w d => tvPowerChanged d w) w
  emit (.delay 1) w

/-! ## Vocabulary for stating what the functions do

Nothing below is executed by the firmware.  These are the frames and event
sequences the statements speak about, written out independently of the code. -/

/-- A frame in which every one of the 25 cells shows the colour `(r, g, b)`:
the two header bytes `0x05, 0x05`, then 25 times `r, g, b`. -/
def solidFrame (r g b : Nat) : List Nat :=
  0x05 :: 0x05 :: (List.replicate 25 [r, g, b]).flatten

/-- One blink cycle: the colour shown, 500 ms, all cells black, 100 ms. -/
def blinkCycle (r g b : Nat) : List Event :=
  [.displaybuff (solidFrame r g b), .delay 500, .displaybuff (solidFrame 0x00 0x00 0x00), .delay 100]

/-- Five blink cycles in a row. -/
def blinkEvents (r g b : Nat) : List Event :=
  (List.replicate 5 (blinkCycle r g b)).flatten

/-- The events of `n` polls that found the radio not connected: each is one
status check, a 500 ms delay and a dot on the serial port. -/
def pollEvents (n : Nat) : List Event :=
  (List.replicate n [.wifiStatus false, .delay 500, .serialPrint "."]).flatten

/-- What `connectWifi` does before its first status check. -/
def connectHead (env : Env) : List Event :=
  [.wifiModeSta, .wifiBegin env.ssid env.pass, .serialPrintln "",
   .serialPrintln "Connecting to WiFi", .serialPrint "Connecting..."]

/-- All events of a call of `connectWifi` that gave up after `polls` polls. -/
def connectFailedEvents (env : Env) (polls : Nat) : List Event :=
  connectHead env ++ pollEvents polls ++ [.serialPrintln "", .serialPrintln "Connection failed."]

/-- All events of a call of `connectWifi` whose status check number `m`
(counted from 0) was the first to find the radio connected. -/
def connectOkEvents (env : Env) (m : Nat) : List Event :=
  connectHead env ++ pollEvents m ++
    [.wifiStatus true, .serialPrintln "", .serialPrint "Connected to ", .serialPrintln env.ssid,
     .serialPrint "IP address: ", .serialPrintlnLocalIP]

/-- Serial output for network number `i` of a scan, with its 10 ms delay. -/
def networkLine (i : Nat) : List Event :=
  [.serialPrintInt (i + 1), .serialPrint ": ", .serialPrintChannel i, .serialPrint "CH (",
   .serialPrintRSSI i, .serialPrint ")", .serialPrintEncryption i, .serialPrint "  ",
   .serialPrintSSID i, .serialPrintln "", .delay 10]

/-- Serial output that follows a scan which returned `n`. -/
def scanListing (n : Int) : List Event :=
  if n = 0 then
    [.serialPrintln "no networks found"]
  else
    [.serialPrintInt n, .serialPrintln " networks found\n"]
      ++ (List.range n.toNat).flatMap networkLine

/-- The diagnostic part of a failed round: message, disconnect, one scan that
returned `n`, and the listing. -/
def scanEvents (n : Int) : List Event :=
  [.serialPrintln "Cannot connect to WiFi. Please check data and reset the ESP.",
   .wifiDisconnect, .wifiScanNetworks n] ++ scanListing n

/-- One whole failed round of the retry loop of `setup`, in which the scan is
scan number `s` (counted from 0): the failed `connectWifi`, the diagnostic
part, the red blink. -/
def failedCycle (env : Env) (s : Nat) : List Event :=
  connectFailedEvents env 22 ++ scanEvents (env.scanNetworks s) ++ blinkEvents 0x40 0x00 0x00

/-- The events of `k` failed rounds in a row, the first scan being number `s`. -/
def retryEvents (env : Env) : Nat → Nat → List Event
  | _, 0 => []
  | s, k + 1 => failedCycle env s ++ retryEvents env (s + 1) k

/-- What `setup` does before the retry loop. -/
def bootEvents : List Event :=
  [.m5Begin true false true, .displaybuff (solidFrame 0x40 0x40 0x40), .irsendBegin, .delay 100]

/-- What `setup` does after the retry loop. -/
def connectedEvents : List Event :=
  [.displaybuff (solidFrame 0x00 0x00 0x40), .addDevice "Smart TV" .tvPowerChanged,
   .espalexaBegin]

/-- Content of `buf_display` after `k` failed rounds of the retry loop entered
with content `buf`. -/
def retryBuf (buf : List Nat) (k : Nat) : List Nat :=
  if k = 0 then buf else solidFrame 0x00 0x00 0x00

/-- The world in which `setup` makes its call number `j` (counted from 0) of
`connectWifi`, all earlier calls having failed. -/
def retryWorld (env : Env) (w : World) : Nat → World
  | 0 => setupBoot w
  | j + 1 => wifiFailed env (connectWifi env (retryWorld env w j)).2

/-- Whether an event is a call of `WiFi.scanNetworks()`. -/
def isScan : Event → Bool
  | .wifiScanNetworks _ => true
  | _ => false

/-- Whether an event is a call of `WiFi.status()`. -/
def isStatus : Event → Bool
  | .wifiStatus _ => true
  | _ => false

/-- Whether an event is a call of `espalexa.addDevice`. -/
def isAddDevice : Event → Bool
  | .addDevice _ _ => true
  | _ => false

/-- Whether an event writes a frame to the display. -/
def isFrame : Event → Bool
  | .displaybuff _ => true
  | _ => false

/-- Whether an event is an IR transmission. -/
def isSend : Event → Bool
  | .sendNEC _ _ => true
  | _ => false

/-- The frame an event writes to the display, if it writes one. -/
def frameOf : Event → Option (List Nat)
  | .displaybuff f => some f
  | _ => none

/-- The frame most recently written to the display, if any was. -/
def lastFrame (t : List Event) : Option (List Nat) :=
  t.reverse.findSome? frameOf

/-- The callbacks of a whole run of the steady state, one after the other. -/
def runCallbacks (ds : List (Option EspalexaDevice)) (w : World) : World :=
  ds.foldl (fun w d => tvPowerChanged d w) w

/-- Several rounds of `loop`, each with the devices the endpoint reports in it. -/
def runLoops (rounds : List (List (Option EspalexaDevice))) (w : World) : World :=
  rounds.foldl (fun w pending => loop pending w) w

/-- A radio that never gets connected, and scans that find nothing. -/
def envNever : Env :=
  { ssid := "home", pass := "secret", status := fun _ => false, scanNetworks := fun _ => 0 }

/-- A radio that is connected from its third status check on. -/
def envThird : Env :=
  { ssid := "home", pass := "secret", status := fun k => decide (2 ≤ k), scanNetworks := fun _ => 0 }

/-- A radio that gets connected at status check number `t` (counted from 0)
and whose scans find two networks. -/
def envAt (t : Nat) : Env :=
  { ssid := "home", pass := "secret", status := fun k => decide (k = t), scanNetworks := fun _ => 2 }

/-! ## Auxiliary facts -/

theorem set3_append (r g b x y z : Nat) (rest : List Nat) :
    ∀ (pre : List Nat) (k : Nat), pre.length = k →
      (((pre ++ x :: y :: z :: rest).set (k + 0) r).set (k + 1) g).set (k + 2) b
        = pre ++ r :: g :: b :: rest := by
  intro pre
  induction pre with
  | nil => intro k hk; subst hk; rfl
  | cons a pre ih =>
    intro k hk
    subst hk
    have h := ih pre.length rfl
    simp only [Nat.add_zero] at h
    simp only [List.cons_append, List.length_cons, Nat.add_zero, Nat.add_right_comm _ 1,
      List.set_cons_succ, h]

theorem setBuff_loop (r g b : Nat) (buf : List Nat) (hlen : buf.length = 77) :
    ∀ n, n ≤ 25 →
      (List.range n).foldl (setBuffCell r g b) buf
        = buf.take 2 ++ (List.replicate n [r, g, b]).flatten ++ buf.drop (2 + n * 3) := by
  intro n
  induction n with
  | zero => intro _; simp
  | succ n ih =>
    intro hn
    have h0 : 2 + n * 3 < buf.length := by omega
    have h1 : 2 + n * 3 + 1 < buf.length := by omega
    have h2 : 2 + n * 3 + 1 + 1 < buf.length := by omega
    rw [List.range_succ, List.foldl_append, ih (by omega)]
    rw [List.drop_eq_getElem_cons h0, List.drop_eq_getElem_cons h1, List.drop_eq_getElem_cons h2]
    have hpre : (buf.take 2 ++ (List.replicate n [r, g, b]).flatten).length = 2 + n * 3 := by
      simp [List.length_take, hlen]
    simp only [List.foldl_cons, List.foldl_nil, setBuffCell]
    rw [set3_append r g b _ _ _ _ _ _ hpre]
    have hrep : List.replicate (n + 1) [r, g, b] = List.replicate n [r, g, b] ++ [[r, g, b]] := by
      rw [List.replicate_succ']
    rw [hrep, List.flatten_append]
    have hd : 2 + n * 3 + 1 + 1 + 1 = 2 + (n + 1) * 3 := by ring
    rw [hd]
    simp [List.append_assoc]

theorem setBuffBytes_eq (r g b : Nat) (buf : List Nat) (hlen : buf.length = 77) :
    setBuffBytes r g b buf = solidFrame r g b := by
  unfold setBuffBytes
  have hl : ((buf.set 0 0x05).set 1 0x05).length = 77 := by simp [hlen]
  rw [setBuff_loop r g b _ hl 25 (le_refl _)]
  have hdrop : List.drop (2 + 25 * 3) ((buf.set 0 0x05).set 1 0x05) = [] := by
    apply List.drop_eq_nil_of_le; omega
  rw [hdrop]
  match buf, hlen with
  | x :: y :: rest, _ => simp [solidFrame]

theorem solidFrame_length (r g b : Nat) : (solidFrame r g b).length = 77 := by
  simp [solidFrame]

theorem setBuff_eq (r g b : Nat) (w : World) (h : w.buf_display.length = 77) :
    setBuff r g b w = { w with buf_display := solidFrame r g b } := by
  simp [setBuff, setBuffBytes_eq r g b _ h]

theorem blinkOnce_eq (r g b : Nat) (w : World) (h : w.buf_display.length = 77) :
    blinkOnce r g b w
      = { w with buf_display := solidFrame 0x00 0x00 0x00
                 trace := w.trace ++ blinkCycle r g b } := by
  unfold blinkOnce
  simp only [setBuff_eq r g b w h]
  rw [setBuff_eq 0x00 0x00 0x00 _ (by simp [emit, displaybuff, solidFrame_length])]
  simp [emit, displaybuff, blinkCycle]

theorem blink5_eq (r g b : Nat) (w : World) (h : w.buf_display.length = 77) :
    blink5 r g b w
      = { w with buf_display := solidFrame 0x00 0x00 0x00
                 trace := w.trace ++ blinkEvents r g b } := by
  have hr : List.range 5 = [0, 1, 2, 3, 4] := by decide
  unfold blink5
  rw [hr]
  simp only [List.foldl_cons, List.foldl_nil]
  simp [blinkOnce_eq, h, solidFrame_length, blinkEvents, List.replicate]

theorem tvPowerChanged_on (d : EspalexaDevice) (w : World) (hd : d.getValue = true)
    (h : w.buf_display.length = 77) :
    tvPowerChanged (some d) w
      = { w with buf_display := solidFrame 0x00 0x00 0x40
                 trace := w.trace ++ ([.sendNEC 0x210704FB 32, .serialPrintln "TV Power Changed!"]
                    ++ blinkEvents 0x00 0x40 0x00 ++ [.displaybuff (solidFrame 0x00 0x00 0x40)]) } := by
  simp only [tvPowerChanged, hd, if_true]
  simp [blink5_eq, setBuff_eq, h, solidFrame_length, emit, displaybuff, COM_TV_POWER_CHANGE,
    SIZE_COM_TV_POWER_CHANGE]

theorem pollEvents_succ (n : Nat) :
    pollEvents (n + 1) = [.wifiStatus false, .delay 500, .serialPrint "."] ++ pollEvents n := by
  simp [pollEvents, List.replicate_succ]

theorem connectLoop_exhaust (env : Env) :
    ∀ (n i : Nat) (w : World), i + n = 21 →
      (∀ j, j ≤ n → env.status (w.statusReads + j) = false) →
      connectLoop env i w
        = (false, { w with statusReads := w.statusReads + (n + 1)
                           trace := w.trace ++ pollEvents (n + 1) }) := by
  intro n
  induction n with
  | zero =>
    intro i w hi h
    have h0 := h 0 (le_refl _)
    simp only [Nat.add_zero] at h0 hi
    rw [connectLoop]
    simp [h0, hi, emit, pollEvents]
  | succ n ih =>
    intro i w hi h
    have h0 := h 0 (Nat.zero_le _)
    simp only [Nat.add_zero] at h0
    have hlt : ¬ 20 < i := by omega
    rw [connectLoop]
    simp only [h0, hlt, if_false, Bool.false_eq_true]
    rw [ih (i + 1) _ (by omega)]
    · simp [emit, pollEvents_succ (n + 1), Nat.add_assoc, Nat.add_comm 1]
    · intro j hj
      have := h (j + 1) (by omega)
      simpa [emit, Nat.add_assoc, Nat.add_comm 1] using this

theorem connectLoop_found (env : Env) :
    ∀ (m i : Nat) (w : World), i + m ≤ 21 →
      (∀ j, j < m → env.status (w.statusReads + j) = false) →
      env.status (w.statusReads + m) = true →
      connectLoop env i w
        = (true, { w with statusReads := w.statusReads + (m + 1)
                          trace := w.trace ++ (pollEvents m ++ [.wifiStatus true]) }) := by
  intro m
  induction m with
  | zero =>
    intro i w _ _ ht
    simp only [Nat.add_zero] at ht
    rw [connectLoop]
    simp [ht, emit, pollEvents]
  | succ m ih =>
    intro i w hi h ht
    have h0 := h 0 (Nat.succ_pos _)
    simp only [Nat.add_zero] at h0
    have hlt : ¬ 20 < i := by omega
    rw [connectLoop]
    simp only [h0, hlt, if_false, Bool.false_eq_true]
    rw [ih (i + 1) _ (by omega)]
    · simp [emit, pollEvents_succ m, Nat.add_assoc, Nat.add_comm 1]
    · intro j hj
      have := h (j + 1) (by omega)
      simpa [emit, Nat.add_assoc, Nat.add_comm 1] using this
    · simpa [emit, Nat.add_assoc, Nat.add_comm 1] using ht

theorem connectWifi_failed (env : Env) (w : World)
    (h : ∀ j, j < 22 → env.status (w.statusReads + j) = false) :
    connectWifi env w
      = (false, { w with statusReads := w.statusReads + 22
                         trace := w.trace ++ connectFailedEvents env 22 }) := by
  unfold connectWifi
  simp only []
  rw [connectLoop_exhaust env 21 0 _ (by omega) (by
    intro j hj; simpa [emit] using h j (by omega))]
  simp [emit, connectFailedEvents, connectHead]

theorem connectWifi_ok (env : Env) (w : World) (m : Nat) (hm : m < 22)
    (h : ∀ j, j < m → env.status (w.statusReads + j) = false)
    (ht : env.status (w.statusReads + m) = true) :
    connectWifi env w
      = (true, { w with statusReads := w.statusReads + (m + 1)
                        trace := w.trace ++ connectOkEvents env m }) := by
  unfold connectWifi
  simp only []
  rw [connectLoop_found env m 0 _ (by omega) (by
    intro j hj; simpa [emit] using h j hj) (by simpa [emit] using ht)]
  simp [emit, connectOkEvents, connectHead]

theorem printNetwork_foldl (l : List Nat) :
    ∀ w : World, l.foldl printNetwork w = { w with trace := w.trace ++ l.flatMap networkLine } := by
  induction l with
  | nil => intro w; simp
  | cons i l ih =>
    intro w
    rw [List.foldl_cons, ih]
    simp [printNetwork, emit, networkLine]

theorem wifiFailed_eq (env : Env) (w : World) (h : w.buf_display.length = 77) :
    wifiFailed env w
      = { w with buf_display := solidFrame 0x00 0x00 0x00
                 scans := w.scans + 1
                 trace := w.trace ++ (scanEvents (env.scanNetworks w.scans)
                            ++ blinkEvents 0x40 0x00 0x00) } := by
  unfold wifiFailed
  by_cases hn : env.scanNetworks w.scans = 0
  · simp [hn, blink5_eq, h, emit, scanEvents, scanListing]
  · simp [hn, blink5_eq, h, emit, scanEvents, scanListing, printNetwork_foldl]

theorem setupBoot_eq (w : World) (h : w.buf_display.length = 77) :
    setupBoot w
      = { w with buf_display := solidFrame 0x40 0x40 0x40
                 trace := w.trace ++ bootEvents } := by
  simp [setupBoot, setBuff_eq, h, emit, displaybuff, bootEvents]

theorem setupConnected_eq (w : World) (h : w.buf_display.length = 77) :
    setupConnected w
      = { w with buf_display := solidFrame 0x00 0x00 0x40
                 trace := w.trace ++ connectedEvents } := by
  simp [setupConnected, setBuff_eq, h, emit, displaybuff, connectedEvents]

theorem retryBuf_length (buf : List Nat) (k : Nat) (h : buf.length = 77) :
    (retryBuf buf k).length = 77 := by
  unfold retryBuf
  split
  · exact h
  · exact solidFrame_length 0x00 0x00 0x00

theorem connectRetry_left (env : Env) (m : Nat) (hm : m < 22) :
    ∀ (k fuel : Nat) (w : World), w.buf_display.length = 77 → k < fuel →
      (∀ j, j < 22 * k + m → env.status (w.statusReads + j) = false) →
      env.status (w.statusReads + (22 * k + m)) = true →
      connectRetry env fuel w
        = (true, { w with buf_display := retryBuf w.buf_display k
                          statusReads := w.statusReads + (22 * k + m + 1)
                          scans := w.scans + k
                          trace := w.trace ++ (retryEvents env w.scans k
                                     ++ connectOkEvents env m) }) := by
  intro k
  induction k with
  | zero =>
    intro fuel w _ hf h ht
    obtain ⟨f, rfl⟩ : ∃ f, fuel = f + 1 := ⟨fuel - 1, by omega⟩
    simp only [Nat.mul_zero, Nat.zero_add] at h ht
    simp [connectRetry, connectWifi_ok env w m hm h ht, retryBuf, retryEvents]
  | succ k ih =>
    intro fuel w hw hf h ht
    obtain ⟨f, rfl⟩ : ∃ f, fuel = f + 1 := ⟨fuel - 1, by omega⟩
    have hfail := connectWifi_failed env w (fun j hj => h j (by omega))
    simp only [connectRetry, hfail, Bool.false_eq_true, if_false]
    have hw2 : ({ w with statusReads := w.statusReads + 22
                         trace := w.trace ++ connectFailedEvents env 22 } :
        World).buf_display.length = 77 := hw
    rw [wifiFailed_eq env _ hw2]
    rw [ih f _ (solidFrame_length 0x00 0x00 0x00) (by omega)]
    · simp [retryBuf, retryEvents, failedCycle, Nat.add_assoc, Nat.add_comm 1, Nat.mul_add]
      omega
    · intro j hj
      have := h (22 + j) (by omega)
      simpa [Nat.add_assoc] using this
    · have : w.statusReads + 22 + (22 * k + m) = w.statusReads + (22 * (k + 1) + m) := by omega
      simpa [this] using ht

theorem connectRetry_running (env : Env) :
    ∀ (fuel : Nat) (w : World), w.buf_display.length = 77 →
      (∀ j, j < 22 * fuel → env.status (w.statusReads + j) = false) →
      connectRetry env fuel w
        = (false, { w with buf_display := retryBuf w.buf_display fuel
                           statusReads := w.statusReads + 22 * fuel
                           scans := w.scans + fuel
                           trace := w.trace ++ retryEvents env w.scans fuel }) := by
  intro fuel
  induction fuel with
  | zero => intro w _ _; simp [connectRetry, retryBuf, retryEvents]
  | succ f ih =>
    intro w hw h
    have hfail := connectWifi_failed env w (fun j hj => h j (by omega))
    simp only [connectRetry, hfail, Bool.false_eq_true, if_false]
    have hw2 : ({ w with statusReads := w.statusReads + 22
                         trace := w.trace ++ connectFailedEvents env 22 } :
        World).buf_display.length = 77 := hw
    rw [wifiFailed_eq env _ hw2]
    rw [ih _ (solidFrame_length 0x00 0x00 0x00)]
    · simp [retryBuf, retryEvents, failedCycle, Nat.add_assoc, Nat.add_comm 1, Nat.mul_add]
      omega
    · intro j hj
      have := h (22 + j) (by omega)
      simpa [Nat.add_assoc] using this

/-- Least reading that answers "connected", if there is one below the bound. -/
theorem first_connected (p : Nat → Bool) (n : Nat) :
    (∀ j, j < n → p j = false) ∨
      ∃ t, t < n ∧ p t = true ∧ ∀ j, j < t → p j = false := by
  induction n with
  | zero => left; intro j hj; omega
  | succ n ih =>
    rcases ih with h | ⟨t, ht, hp, hlt⟩
    · cases hpn : p n with
      | false =>
        left
        intro j hj
        rcases Nat.lt_succ_iff_lt_or_eq.mp hj with h1 | h1
        · exact h j h1
        · rw [h1]; exact hpn
      | true => exact Or.inr ⟨n, Nat.lt_succ_self n, hpn, h⟩
    · exact Or.inr ⟨t, Nat.lt_succ_of_lt ht, hp, hlt⟩

theorem connectWifi_cases (env : Env) (w : World) :
    ((∀ j, j < 22 → env.status (w.statusReads + j) = false) ∧
      connectWifi env w
        = (false, { w with statusReads := w.statusReads + 22
                           trace := w.trace ++ connectFailedEvents env 22 })) ∨
    ∃ m, m < 22 ∧ (∀ j, j < m → env.status (w.statusReads + j) = false) ∧
      env.status (w.statusReads + m) = true ∧
      connectWifi env w
        = (true, { w with statusReads := w.statusReads + (m + 1)
                          trace := w.trace ++ connectOkEvents env m }) := by
  rcases first_connected (fun j => env.status (w.statusReads + j)) 22 with h | ⟨m, hm, ht, hlt⟩
  · exact Or.inl ⟨h, connectWifi_failed env w h⟩
  · exact Or.inr ⟨m, hm, hlt, ht, connectWifi_ok env w m hm hlt ht⟩

theorem setup_left (env : Env) (w : World) (k m fuel : Nat) (hw : w.buf_display.length = 77)
    (hk : k < fuel) (hm : m < 22)
    (h : ∀ j, j < 22 * k + m → env.status (w.statusReads + j) = false)
    (ht : env.status (w.statusReads + (22 * k + m)) = true) :
    setup env fuel w
      = (true, { w with buf_display := solidFrame 0x00 0x00 0x40
                        statusReads := w.statusReads + (22 * k + m + 1)
                        scans := w.scans + k
                        trace := w.trace ++ (bootEvents ++ retryEvents env w.scans k
                                   ++ connectOkEvents env m ++ connectedEvents) }) := by
  unfold setup
  simp only []
  rw [setupBoot_eq w hw]
  have hb : ({ w with buf_display := solidFrame 0x40 0x40 0x40
                      trace := w.trace ++ bootEvents } : World).buf_display.length = 77 :=
    solidFrame_length 0x40 0x40 0x40
  rw [connectRetry_left env m hm k fuel _ hb hk h ht]
  simp only [if_true]
  rw [setupConnected_eq _ (retryBuf_length _ _ (solidFrame_length 0x40 0x40 0x40))]
  simp [List.append_assoc]

theorem setup_running (env : Env) (w : World) (fuel : Nat) (hw : w.buf_display.length = 77)
    (h : ∀ j, j < 22 * fuel → env.status (w.statusReads + j) = false) :
    setup env fuel w
      = (false, { w with buf_display := retryBuf (solidFrame 0x40 0x40 0x40) fuel
                         statusReads := w.statusReads + 22 * fuel
                         scans := w.scans + fuel
                         trace := w.trace ++ (bootEvents ++ retryEvents env w.scans fuel) }) := by
  unfold setup
  simp only []
  rw [setupBoot_eq w hw]
  have hb : ({ w with buf_display := solidFrame 0x40 0x40 0x40
                      trace := w.trace ++ bootEvents } : World).buf_display.length = 77 :=
    solidFrame_length 0x40 0x40 0x40
  rw [connectRetry_running env fuel _ hb h]
  simp [List.append_assoc]

theorem setup_cases (env : Env) (w : World) (fuel : Nat) (hw : w.buf_display.length = 77) :
    (setup env fuel w
      = (false, { w with buf_display := retryBuf (solidFrame 0x40 0x40 0x40) fuel
                         statusReads := w.statusReads + 22 * fuel
                         scans := w.scans + fuel
                         trace := w.trace ++ (bootEvents ++ retryEvents env w.scans fuel) })) ∨
    ∃ k m, k < fuel ∧ m < 22 ∧
      setup env fuel w
        = (true, { w with buf_display := solidFrame 0x00 0x00 0x40
                          statusReads := w.statusReads + (22 * k + m + 1)
                          scans := w.scans + k
                          trace := w.trace ++ (bootEvents ++ retryEvents env w.scans k
                                     ++ connectOkEvents env m ++ connectedEvents) }) := by
  rcases first_connected (fun j => env.status (w.statusReads + j)) (22 * fuel)
    with h | ⟨t, ht, hp, hlt⟩
  · exact Or.inl (setup_running env w fuel hw h)
  · right
    have ht22 : 22 * (t / 22) + t % 22 = t := Nat.div_add_mod t 22
    refine ⟨t / 22, t % 22, ?_, Nat.mod_lt _ (by decide), ?_⟩
    · exact Nat.div_lt_of_lt_mul ht
    · exact setup_left env w (t / 22) (t % 22) fuel hw (Nat.div_lt_of_lt_mul ht)
        (Nat.mod_lt _ (by decide)) (by rw [ht22]; exact hlt) (by rw [ht22]; exact hp)

theorem mem_pollEvents (n : Nat) (e : Event) (h : e ∈ pollEvents n) :
    e = .wifiStatus false ∨ e = .delay 500 ∨ e = .serialPrint "." := by
  simp only [pollEvents, List.mem_flatten, List.mem_replicate] at h
  obtain ⟨l, ⟨_, rfl⟩, he⟩ := h
  simpa using he

theorem countP_isStatus_pollEvents (n : Nat) : (pollEvents n).countP isStatus = n := by
  induction n with
  | zero => rfl
  | succ n ih =>
    rw [pollEvents_succ, List.countP_append, ih]
    simp [List.countP_cons, isStatus, Nat.add_comm]

theorem count_delay_pollEvents (n : Nat) : (pollEvents n).count (.delay 500) = n := by
  induction n with
  | zero => rfl
  | succ n ih =>
    rw [pollEvents_succ, List.count_append, ih]
    simp [List.count_cons, Nat.add_comm]

theorem retryEvents_snoc (env : Env) :
    ∀ (k s : Nat), retryEvents env s (k + 1) = retryEvents env s k ++ failedCycle env (s + k) := by
  intro k
  induction k with
  | zero => intro s; simp [retryEvents]
  | succ k ih =>
    intro s
    have h1 : retryEvents env s (k + 1 + 1)
        = failedCycle env s ++ retryEvents env (s + 1) (k + 1) := rfl
    have h2 : retryEvents env s (k + 1) = failedCycle env s ++ retryEvents env (s + 1) k := rfl
    rw [h1, ih (s + 1), h2, List.append_assoc, Nat.add_assoc, Nat.add_comm 1 k]

theorem retryEvents_eq_flatMap (env : Env) (s k : Nat) :
    retryEvents env s k
      = (List.range k).flatMap (fun j =>
          connectFailedEvents env 22 ++ scanEvents (env.scanNetworks (s + j))
            ++ blinkEvents 0x40 0x00 0x00) := by
  induction k with
  | zero => rfl
  | succ k ih =>
    rw [retryEvents_snoc, ih, List.range_succ, List.flatMap_append]
    simp [failedCycle]

theorem countP_pollEvents_zero (p : Event → Bool) (n : Nat)
    (h1 : p (.wifiStatus false) = false) (h2 : p (.delay 500) = false)
    (h3 : p (.serialPrint ".") = false) : (pollEvents n).countP p = 0 := by
  rw [List.countP_eq_zero]
  intro e he
  rcases mem_pollEvents n e he with h | h | h <;> simp [h, h1, h2, h3]

theorem countP_networkLines_zero (p : Event → Bool) (l : List Nat)
    (h : ∀ i e, e ∈ networkLine i → p e = false) : (l.flatMap networkLine).countP p = 0 := by
  rw [List.countP_eq_zero]
  intro e he
  rw [List.mem_flatMap] at he
  obtain ⟨i, _, hi⟩ := he
  simp [h i e hi]

theorem countP_retryEvents (env : Env) (p : Event → Bool) (c : Nat)
    (hc : ∀ s, (failedCycle env s).countP p = c) :
    ∀ (k s : Nat), (retryEvents env s k).countP p = c * k := by
  intro k
  induction k with
  | zero => intro s; rfl
  | succ k ih =>
    intro s
    rw [retryEvents_snoc, List.countP_append, ih s, hc, Nat.mul_succ]

theorem countP_isScan_failedCycle (env : Env) (s : Nat) :
    (failedCycle env s).countP isScan = 1 := by
  have hb : (blinkEvents 0x40 0x00 0x00).countP isScan = 0 := rfl
  have hp := countP_pollEvents_zero isScan 22 rfl rfl rfl
  have hl : (scanListing (env.scanNetworks s)).countP isScan = 0 := by
    unfold scanListing
    split
    · rfl
    · rw [List.countP_append,
        countP_networkLines_zero isScan _ (by
          intro i e he
          simp only [networkLine, List.mem_cons, List.mem_singleton, List.not_mem_nil,
            or_false] at he
          rcases he with h | h | h | h | h | h | h | h | h | h | h <;> rw [h] <;> rfl)]
      rfl
  simp only [failedCycle, connectFailedEvents, scanEvents, List.countP_append, hb, hp, hl]
  rfl

theorem count_red_failedCycle (env : Env) (s : Nat) :
    (failedCycle env s).countP (fun e => e == .displaybuff (solidFrame 0x40 0x00 0x00)) = 5 := by
  have hb : (blinkEvents 0x40 0x00 0x00).countP
      (fun e => e == .displaybuff (solidFrame 0x40 0x00 0x00)) = 5 := by decide
  have hp := countP_pollEvents_zero
    (fun e => e == .displaybuff (solidFrame 0x40 0x00 0x00)) 22 (by decide) (by decide) (by decide)
  have hl : (scanListing (env.scanNetworks s)).countP
      (fun e => e == .displaybuff (solidFrame 0x40 0x00 0x00)) = 0 := by
    unfold scanListing
    split
    · decide
    · rw [List.countP_append,
        countP_networkLines_zero _ _ (by
          intro i e he
          simp only [networkLine, List.mem_cons, List.mem_singleton, List.not_mem_nil,
            or_false] at he
          rcases he with h | h | h | h | h | h | h | h | h | h | h <;> rw [h] <;> simp)]
      simp
  simp only [failedCycle, connectFailedEvents, scanEvents, List.countP_append, hb, hp, hl]
  simp [connectHead]

theorem countP_isAddDevice_failedCycle (env : Env) (s : Nat) :
    (failedCycle env s).countP isAddDevice = 0 := by
  have hb : (blinkEvents 0x40 0x00 0x00).countP isAddDevice = 0 := rfl
  have hp := countP_pollEvents_zero isAddDevice 22 rfl rfl rfl
  have hl : (scanListing (env.scanNetworks s)).countP isAddDevice = 0 := by
    unfold scanListing
    split
    · rfl
    · rw [List.countP_append,
        countP_networkLines_zero isAddDevice _ (by
          intro i e he
          simp only [networkLine, List.mem_cons, List.mem_singleton, List.not_mem_nil,
            or_false] at he
          rcases he with h | h | h | h | h | h | h | h | h | h | h <;> rw [h] <;> rfl)]
      rfl
  simp only [failedCycle, connectFailedEvents, scanEvents, List.countP_append, hb, hp, hl]
  rfl

theorem retryWorld_of_failures (env : Env) (w : World) (hw : w.buf_display.length = 77) :
    ∀ k, (∀ j, j < k → (connectWifi env (retryWorld env w j)).1 = false) →
      (∀ i, i < 22 * k → env.status (w.statusReads + i) = false) ∧
      retryWorld env w k
        = { w with buf_display := retryBuf (solidFrame 0x40 0x40 0x40) k
                   statusReads := w.statusReads + 22 * k
                   scans := w.scans + k
                   trace := w.trace ++ (bootEvents ++ retryEvents env w.scans k) } := by
  intro k
  induction k with
  | zero =>
    intro _
    refine ⟨fun i hi => by omega, ?_⟩
    simp [retryWorld, setupBoot_eq w hw, retryBuf, retryEvents]
  | succ k ih =>
    intro hfail
    obtain ⟨hs, hk⟩ := ih (fun j hj => hfail j (Nat.lt_succ_of_lt hj))
    have hf := hfail k (Nat.lt_succ_self k)
    have hlen : (retryWorld env w k).buf_display.length = 77 := by
      rw [hk]
      exact retryBuf_length _ _ (solidFrame_length 0x40 0x40 0x40)
    have hpos : (retryWorld env w k).statusReads = w.statusReads + 22 * k := by rw [hk]
    rcases connectWifi_cases env (retryWorld env w k) with ⟨hall, hc⟩ | ⟨m, _, _, _, hc⟩
    · constructor
      · intro i hi
        by_cases h1 : i < 22 * k
        · exact hs i h1
        · have h2 := hall (i - 22 * k) (by omega)
          rw [hpos] at h2
          have h3 : w.statusReads + 22 * k + (i - 22 * k) = w.statusReads + i := by omega
          rw [h3] at h2
          exact h2
      · have hstep : retryWorld env w (k + 1)
            = wifiFailed env (connectWifi env (retryWorld env w k)).2 := rfl
        have hlen2 : ({ retryWorld env w k with
            statusReads := (retryWorld env w k).statusReads + 22
            trace := (retryWorld env w k).trace ++ connectFailedEvents env 22 } :
              World).buf_display.length = 77 := hlen
        rw [hstep, hc]
        show wifiFailed env _ = _
        rw [wifiFailed_eq env _ hlen2, retryEvents_snoc, hk]
        simp [retryBuf, failedCycle, List.append_assoc, Nat.mul_succ, Nat.add_assoc]
    · rw [hc] at hf
      simp at hf

theorem countP_connectOkEvents_zero (env : Env) (m : Nat) (p : Event → Bool)
    (hh : (connectHead env).countP p = 0)
    (h1 : p (.wifiStatus false) = false) (h2 : p (.delay 500) = false)
    (h3 : p (.serialPrint ".") = false)
    (ht : ([.wifiStatus true, .serialPrintln "", .serialPrint "Connected to ",
            .serialPrintln env.ssid, .serialPrint "IP address: ",
            .serialPrintlnLocalIP] : List Event).countP p = 0) :
    (connectOkEvents env m).countP p = 0 := by
  simp only [connectOkEvents, List.countP_append, hh, ht, countP_pollEvents_zero p m h1 h2 h3]

theorem all_connect_calls_fail_of_never (env : Env) (w : World)
    (h : ∀ k, env.status k = false) :
    ∀ j, (connectWifi env (retryWorld env w j)).1 = false := by
  intro j
  rw [connectWifi_failed env _ (fun i _ => h _)]

theorem lastFrame_append (a b : List Event) :
    lastFrame (a ++ b) = (lastFrame b).or (lastFrame a) := by
  simp [lastFrame, List.reverse_append, List.findSome?_append]

/-- The steady state: buffer and display both show solid blue. -/
theorem tvPowerChanged_keeps_blue (d : Option EspalexaDevice) (w : World)
    (hb : w.buf_display = solidFrame 0x00 0x00 0x40)
    (hl : lastFrame w.trace = some (solidFrame 0x00 0x00 0x40)) :
    (tvPowerChanged d w).buf_display = solidFrame 0x00 0x00 0x40 ∧
    lastFrame (tvPowerChanged d w).trace = some (solidFrame 0x00 0x00 0x40) := by
  cases d with
  | none => exact ⟨hb, hl⟩
  | some d =>
    cases hv : d.getValue with
    | false =>
      have h : tvPowerChanged (some d) w = w := by simp [tvPowerChanged, hv]
      rw [h]
      exact ⟨hb, hl⟩
    | true =>
      have hlen : w.buf_display.length = 77 := by
        rw [hb]
        exact solidFrame_length 0x00 0x00 0x40
      rw [tvPowerChanged_on d w hv hlen]
      refine ⟨rfl, ?_⟩
      dsimp only
      rw [lastFrame_append]
      rfl

theorem runCallbacks_keeps_blue (ds : List (Option EspalexaDevice)) :
    ∀ w : World, w.buf_display = solidFrame 0x00 0x00 0x40 →
      lastFrame w.trace = some (solidFrame 0x00 0x00 0x40) →
      (runCallbacks ds w).buf_display = solidFrame 0x00 0x00 0x40 ∧
      lastFrame (runCallbacks ds w).trace = some (solidFrame 0x00 0x00 0x40) := by
  induction ds with
  | nil => intro w hb hl; exact ⟨hb, hl⟩
  | cons d ds ih =>
    intro w hb hl
    obtain ⟨h1, h2⟩ := tvPowerChanged_keeps_blue d w hb hl
    exact ih _ h1 h2

theorem loop_keeps_blue (pending : List (Option EspalexaDevice)) (w : World)
    (hb : w.buf_display = solidFrame 0x00 0x00 0x40)
    (hl : lastFrame w.trace = some (solidFrame 0x00 0x00 0x40)) :
    (loop pending w).buf_display = solidFrame 0x00 0x00 0x40 ∧
    lastFrame (loop pending w).trace = some (solidFrame 0x00 0x00 0x40) := by
  have h0 : lastFrame (emit .espalexaLoop w).trace = some (solidFrame 0x00 0x00 0x40) := by
    show lastFrame (w.trace ++ [Event.espalexaLoop]) = _
    rw [lastFrame_append]
    exact hl
  obtain ⟨h1, h2⟩ := runCallbacks_keeps_blue pending (emit .espalexaLoop w) hb h0
  refine ⟨h1, ?_⟩
  show lastFrame ((runCallbacks pending (emit .espalexaLoop w)).trace ++ [Event.delay 1]) = _
  rw [lastFrame_append]
  exact h2

theorem runLoops_keeps_blue (rounds : List (List (Option EspalexaDevice))) :
    ∀ w : World, w.buf_display = solidFrame 0x00 0x00 0x40 →
      lastFrame w.trace = some (solidFrame 0x00 0x00 0x40) →
      (runLoops rounds w).buf_display = solidFrame 0x00 0x00 0x40 ∧
      lastFrame (runLoops rounds w).trace = some (solidFrame 0x00 0x00 0x40) := by
  induction rounds with
  | nil => intro w hb hl; exact ⟨hb, hl⟩
  | cons p rounds ih =>
    intro w hb hl
    obtain ⟨h1, h2⟩ := loop_keeps_blue p w hb hl
    exact ih _ h1 h2

/-! ## The claims -/

/-- C1 (as amended): when no status reading ever reports the radio connected,
`connectWifi` returns `false` after exactly 22 calls of `WiFi.status()`, each
followed by one 500 ms delay; its events are the five opening calls, 22 polls
and the two closing log lines, and nothing else. -/
theorem C1_connectWifi_gives_up_after_22_checks (env : Env) (w : World)
    (h : ∀ k, env.status k = false) :
    (connectWifi env w).1 = false ∧
    (connectWifi env w).2.statusReads = w.statusReads + 22 ∧
    ((connectWifi env w).2.trace.drop w.trace.length).countP isStatus = 22 ∧
    ((connectWifi env w).2.trace.drop w.trace.length).count (.delay 500) = 22 ∧
    (connectWifi env w).2.trace
      = w.trace ++ (connectHead env ++
          (List.replicate 22
            [Event.wifiStatus false, Event.delay 500, Event.serialPrint "."]).flatten ++
          [Event.serialPrintln "", Event.serialPrintln "Connection failed."]) := by
  rw [connectWifi_failed env w (fun j _ => h _)]
  refine ⟨rfl, rfl, ?_, ?_, rfl⟩
  · dsimp only
    rw [List.drop_left]
    simp [connectFailedEvents, connectHead, List.countP_append, countP_isStatus_pollEvents,
      List.countP_cons, isStatus]
  · dsimp only
    rw [List.drop_left]
    simp [connectFailedEvents, connectHead, List.count_append, count_delay_pollEvents,
      List.count_cons]

theorem C1_connectWifi_gives_up_after_22_checks_witness :
    (∀ k, envNever.status k = false) ∧
    (connectWifi envNever World.boot).1 = false ∧
    (connectWifi envNever World.boot).2.statusReads = World.boot.statusReads + 22 :=
  ⟨fun _ => rfl,
   (C1_connectWifi_gives_up_after_22_checks envNever World.boot (fun _ => rfl)).1,
   (C1_connectWifi_gives_up_after_22_checks envNever World.boot (fun _ => rfl)).2.1⟩

/-- C1 (as stated) fails: with a radio that never connects, `connectWifi`
started in the booted world returns `false` having called `WiFi.status()` 22
times, not 21. -/
theorem C1_counterexample_22_checks_not_21 :
    (connectWifi envNever World.boot).1 = false ∧
    (connectWifi envNever World.boot).2.statusReads = 22 ∧
    (connectWifi envNever World.boot).2.trace.countP isStatus = 22 ∧
    (connectWifi envNever World.boot).2.trace.countP isStatus ≠ 21 := by
  rw [connectWifi_failed envNever World.boot (fun _ _ => rfl)]
  have hc : (World.boot.trace ++ connectFailedEvents envNever 22).countP isStatus = 22 := by
    simp [World.boot, connectFailedEvents, connectHead, List.countP_append,
      countP_isStatus_pollEvents, List.countP_cons, isStatus]
  refine ⟨rfl, rfl, hc, ?_⟩
  show (World.boot.trace ++ connectFailedEvents envNever 22).countP isStatus ≠ 21
  rw [hc]
  decide

/-- C2: `connectWifi` returns `true` exactly when one of the status checks it
makes reports the radio connected, which is the case exactly when one of the
up to 22 readings it may take does; and when reading number `m` is the first
such, the call takes `m + 1` readings and makes `m` delays of 500 ms, the
positive reading being followed only by log lines. -/
theorem C2_connectWifi_true_iff_connected_reading (env : Env) (w : World) :
    ((connectWifi env w).1 = true ↔
        Event.wifiStatus true ∈ (connectWifi env w).2.trace.drop w.trace.length) ∧
    ((connectWifi env w).1 = true ↔
        ∃ m, m < 22 ∧ env.status (w.statusReads + m) = true) ∧
    (∀ m, m < 22 → (∀ j, j < m → env.status (w.statusReads + j) = false) →
        env.status (w.statusReads + m) = true →
        connectWifi env w
          = (true, { w with statusReads := w.statusReads + (m + 1)
                            trace := w.trace ++ (connectHead env ++ pollEvents m ++
                              [.wifiStatus true, .serialPrintln "", .serialPrint "Connected to ",
                               .serialPrintln env.ssid, .serialPrint "IP address: ",
                               .serialPrintlnLocalIP]) })) := by
  refine ⟨?_, ?_, ?_⟩
  · rcases connectWifi_cases env w with ⟨_, hf⟩ | ⟨m, _, _, _, hok⟩
    · rw [hf]
      simp only [List.drop_left, Bool.false_eq_true, false_iff]
      intro hmem
      simp only [connectFailedEvents, connectHead, List.mem_append] at hmem
      rcases hmem with (hmem | hmem) | hmem
      · simp at hmem
      · rcases mem_pollEvents _ _ hmem with h1 | h1 | h1 <;> simp at h1
      · simp at hmem
    · rw [hok]
      simp [connectOkEvents]
  · rcases connectWifi_cases env w with ⟨hall, hf⟩ | ⟨m, hm, _, ht, hok⟩
    · rw [hf]
      simp only [Bool.false_eq_true, false_iff]
      rintro ⟨m, hm, ht⟩
      rw [hall m hm] at ht
      exact Bool.false_ne_true ht
    · rw [hok]
      simp only [true_iff]
      exact ⟨m, hm, ht⟩
  · intro m hm hlt ht
    exact connectWifi_ok env w m hm hlt ht

theorem C2_connectWifi_true_iff_connected_reading_witness :
    (connectWifi envThird World.boot).1 = true ∧
    (connectWifi envThird World.boot).2.statusReads = 3 ∧
    (connectWifi envThird World.boot).2.trace.count (.delay 500) = 2 := by
  have h := (C2_connectWifi_true_iff_connected_reading envThird World.boot).2.2 2 (by decide)
    (by intro j hj; interval_cases j <;> rfl) rfl
  rw [h]
  refine ⟨rfl, rfl, ?_⟩
  simp [World.boot, connectHead, pollEvents, List.replicate]

/-- C3: called with a device whose value is true, on any 77-byte content of
the display buffer, `tvPowerChanged` makes exactly these calls, in this order:
one NEC transmission of `0x210704FB` with 32 bits (and its log line), five
times (solid green frame `(0x00,0x40,0x00)`, 500 ms, all-black frame, 100 ms),
and last one solid blue frame `(0x00,0x00,0x40)`; so it makes one IR
transmission and eleven frame writes, and it leaves the buffer solid blue. -/
theorem C3_tvPowerChanged_true_sends_blinks_green_ends_blue
    (d : EspalexaDevice) (w : World) (hd : d.getValue = true)
    (hw : w.buf_display.length = 77) :
    (tvPowerChanged (some d) w).trace
      = w.trace ++
        ([Event.sendNEC 0x210704FB 32, Event.serialPrintln "TV Power Changed!"] ++
         (List.replicate 5
            [Event.displaybuff (solidFrame 0x00 0x40 0x00), Event.delay 500,
             Event.displaybuff (solidFrame 0x00 0x00 0x00), Event.delay 100]).flatten ++
         [Event.displaybuff (solidFrame 0x00 0x00 0x40)]) ∧
    ((tvPowerChanged (some d) w).trace.drop w.trace.length).countP isSend = 1 ∧
    ((tvPowerChanged (some d) w).trace.drop w.trace.length).countP isFrame = 11 ∧
    (tvPowerChanged (some d) w).buf_display = solidFrame 0x00 0x00 0x40 := by
  rw [tvPowerChanged_on d w hd hw]
  refine ⟨rfl, ?_, ?_, rfl⟩
  · simp only [List.drop_left]
    rfl
  · simp only [List.drop_left]
    rfl

theorem C3_tvPowerChanged_true_sends_blinks_green_ends_blue_witness :
    (tvPowerChanged (some ⟨true⟩) World.boot).trace
      = World.boot.trace ++
        ([Event.sendNEC 0x210704FB 32, Event.serialPrintln "TV Power Changed!"] ++
         (List.replicate 5
            [Event.displaybuff (solidFrame 0x00 0x40 0x00), Event.delay 500,
             Event.displaybuff (solidFrame 0x00 0x00 0x00), Event.delay 100]).flatten ++
         [Event.displaybuff (solidFrame 0x00 0x00 0x40)]) :=
  (C3_tvPowerChanged_true_sends_blinks_green_ends_blue ⟨true⟩ World.boot rfl (by decide)).1

/-- C4: called with the null pointer, `tvPowerChanged` returns at once: the
world after the call is the world before it, so no IR transmission, no frame
write and no delay were made and no global changed. -/
theorem C4_tvPowerChanged_null_is_noop (w : World) :
    tvPowerChanged none w = w := rfl

/-- C5: called with a device whose value is false, `tvPowerChanged` does
nothing: the world after the call is the world before it, so there was no IR
transmission and no frame write, and the display buffer is unchanged. -/
theorem C5_tvPowerChanged_false_is_noop (d : EspalexaDevice) (w : World)
    (hd : d.getValue = false) :
    tvPowerChanged (some d) w = w ∧
    (tvPowerChanged (some d) w).trace.countP isSend = w.trace.countP isSend ∧
    (tvPowerChanged (some d) w).trace.countP isFrame = w.trace.countP isFrame ∧
    (tvPowerChanged (some d) w).buf_display = w.buf_display := by
  have h : tvPowerChanged (some d) w = w := by simp [tvPowerChanged, hd]
  rw [h]
  exact ⟨rfl, rfl, rfl, rfl⟩

theorem C5_tvPowerChanged_false_is_noop_witness :
    tvPowerChanged (some ⟨false⟩) World.boot = World.boot :=
  (C5_tvPowerChanged_false_is_noop ⟨false⟩ World.boot rfl).1

/-- C6: for all `R`, `G`, `B` and every 77-byte content of `buf_display`,
after `setBuff(R, G, B)` the buffer still has 77 bytes, bytes 0 and 1 are
`0x05`, and for each cell `i < 25` the bytes at `2+3i`, `3+3i`, `4+3i` are
`R`, `G`, `B`; the result is the same whatever the buffer held before, and
no other global and no peripheral is touched. -/
theorem C6_setBuff_fills_whole_frame (R G B : Nat) (w : World)
    (hw : w.buf_display.length = 77) :
    (setBuff R G B w).buf_display.length = 77 ∧
    (setBuff R G B w).buf_display[0]? = some 0x05 ∧
    (setBuff R G B w).buf_display[1]? = some 0x05 ∧
    (∀ i, i < 25 →
      (setBuff R G B w).buf_display[2 + 3 * i]? = some R ∧
      (setBuff R G B w).buf_display[3 + 3 * i]? = some G ∧
      (setBuff R G B w).buf_display[4 + 3 * i]? = some B) ∧
    (∀ v : World, v.buf_display.length = 77 →
      (setBuff R G B v).buf_display = (setBuff R G B w).buf_display) ∧
    setBuff R G B w = { w with buf_display := (setBuff R G B w).buf_display } := by
  have h : ∀ v : World, v.buf_display.length = 77 →
      (setBuff R G B v).buf_display = solidFrame R G B := by
    intro v hv
    rw [setBuff_eq R G B v hv]
  rw [h w hw]
  refine ⟨solidFrame_length R G B, rfl, rfl, ?_, ?_, ?_⟩
  · intro i hi
    interval_cases i <;> exact ⟨rfl, rfl, rfl⟩
  · intro v hv
    exact h v hv
  · exact setBuff_eq R G B w hw

theorem C6_setBuff_fills_whole_frame_witness :
    (setBuff 1 2 3 World.boot).buf_display.length = 77 ∧
    (setBuff 1 2 3 World.boot).buf_display[0]? = some 0x05 ∧
    (setBuff 1 2 3 World.boot).buf_display[4 + 3 * 24]? = some 3 :=
  ⟨(C6_setBuff_fills_whole_frame 1 2 3 World.boot (by decide)).1,
   (C6_setBuff_fills_whole_frame 1 2 3 World.boot (by decide)).2.1,
   ((C6_setBuff_fills_whole_frame 1 2 3 World.boot (by decide)).2.2.2.1 24 (by decide)).2.2⟩

/-- C7: if the first `k` calls of `connectWifi` that `setup` makes fail and
call `k + 1` succeeds, then `setup` returns, having made exactly `k` network
scans and shown exactly `5 * k` solid red frames `(0x40,0x00,0x00)`: its events
are the boot part, then `k` rounds each made of the failed call, one
disconnect-scan-listing and one red blink of 5 cycles (red frame, 500 ms, black
frame, 100 ms), then the successful call and the registration.  If no call
ever succeeds, `setup` is still in its retry loop after any number of calls
and has registered no device. -/
theorem C7_setup_one_scan_one_red_blink_per_failed_connect (env : Env) (w : World)
    (hw : w.buf_display.length = 77) :
    (∀ k fuel, k < fuel →
      (∀ j, j < k → (connectWifi env (retryWorld env w j)).1 = false) →
      (connectWifi env (retryWorld env w k)).1 = true →
      (setup env fuel w).1 = true ∧
      (setup env fuel w).2.scans = w.scans + k ∧
      ((setup env fuel w).2.trace.drop w.trace.length).countP isScan = k ∧
      ((setup env fuel w).2.trace.drop w.trace.length).count
          (.displaybuff (solidFrame 0x40 0x00 0x00)) = 5 * k ∧
      ∃ m, m < 22 ∧
        (setup env fuel w).2.trace
          = w.trace ++ (bootEvents ++
              (List.range k).flatMap (fun j =>
                connectFailedEvents env 22 ++ scanEvents (env.scanNetworks (w.scans + j))
                  ++ blinkEvents 0x40 0x00 0x00)
              ++ connectOkEvents env m ++ connectedEvents)) ∧
    ((∀ j, (connectWifi env (retryWorld env w j)).1 = false) →
      ∀ fuel, (setup env fuel w).1 = false ∧
        ((setup env fuel w).2.trace.drop w.trace.length).countP isAddDevice = 0) := by
  constructor
  · intro k fuel hfuel hfail hok
    obtain ⟨hs, hk⟩ := retryWorld_of_failures env w hw k hfail
    rcases connectWifi_cases env (retryWorld env w k) with ⟨_, hc⟩ | ⟨m, hm, hlt, ht, _⟩
    · rw [hc] at hok
      simp at hok
    · have hpos : (retryWorld env w k).statusReads = w.statusReads + 22 * k := by rw [hk]
      rw [hpos] at hlt ht
      have hall : ∀ j, j < 22 * k + m → env.status (w.statusReads + j) = false := by
        intro j hj
        by_cases h1 : j < 22 * k
        · exact hs j h1
        · have h2 := hlt (j - 22 * k) (by omega)
          have h3 : w.statusReads + 22 * k + (j - 22 * k) = w.statusReads + j := by omega
          rw [h3] at h2
          exact h2
      rw [setup_left env w k m fuel hw hfuel hm hall (by rw [← Nat.add_assoc]; exact ht)]
      refine ⟨rfl, rfl, ?_, ?_, m, hm, ?_⟩
      · dsimp only
        rw [List.drop_left]
        simp only [List.countP_append, countP_retryEvents env isScan 1
          (countP_isScan_failedCycle env) k w.scans,
          countP_connectOkEvents_zero env m isScan rfl rfl rfl rfl rfl]
        simp [bootEvents, connectedEvents, isScan]
      · dsimp only
        rw [List.drop_left]
        show List.countP (fun e => e == Event.displaybuff (solidFrame 0x40 0x00 0x00)) _ = 5 * k
        have hboot : bootEvents.countP
            (fun e => e == Event.displaybuff (solidFrame 0x40 0x00 0x00)) = 0 := by decide
        have hconn : connectedEvents.countP
            (fun e => e == Event.displaybuff (solidFrame 0x40 0x00 0x00)) = 0 := by decide
        have hcok : (connectOkEvents env m).countP
            (fun e => e == Event.displaybuff (solidFrame 0x40 0x00 0x00)) = 0 :=
          countP_connectOkEvents_zero env m
            (fun e => e == Event.displaybuff (solidFrame 0x40 0x00 0x00))
            (by simp [connectHead]) (by decide) (by decide) (by decide) (by simp)
        simp only [List.countP_append, countP_retryEvents env _ 5
          (count_red_failedCycle env) k w.scans, hcok, hboot, hconn]
        omega
      · dsimp only
        rw [retryEvents_eq_flatMap]
  · intro hnever fuel
    obtain ⟨hs, _⟩ := retryWorld_of_failures env w hw fuel (fun j _ => hnever j)
    rw [setup_running env w fuel hw hs]
    refine ⟨rfl, ?_⟩
    dsimp only
    rw [List.drop_left]
    simp only [List.countP_append, countP_retryEvents env isAddDevice 0
      (countP_isAddDevice_failedCycle env) fuel w.scans, Nat.zero_mul, Nat.add_zero]
    rfl

theorem C7_setup_one_scan_one_red_blink_per_failed_connect_witness :
    ((setup (envAt 24) 2 World.boot).1 = true ∧
      (setup (envAt 24) 2 World.boot).2.scans = World.boot.scans + 1 ∧
      ((setup (envAt 24) 2 World.boot).2.trace.drop World.boot.trace.length).countP isScan = 1) ∧
    (∀ fuel, (setup envNever fuel World.boot).1 = false) := by
  have hboot : World.boot.buf_display.length = 77 := by decide
  have h0 : ∀ j, j < 1 →
      (connectWifi (envAt 24) (retryWorld (envAt 24) World.boot j)).1 = false := by
    intro j hj
    obtain rfl : j = 0 := by omega
    rw [connectWifi_failed (envAt 24) _ (by
      intro i hi
      have hp : (retryWorld (envAt 24) World.boot 0).statusReads = 0 := rfl
      rw [hp]
      simp [envAt]
      omega)]
  have h1 : (connectWifi (envAt 24) (retryWorld (envAt 24) World.boot 1)).1 = true := by
    have hp : (retryWorld (envAt 24) World.boot 1).statusReads = 22 := by
      rw [(retryWorld_of_failures (envAt 24) World.boot hboot 1 h0).2]
      rfl
    rw [connectWifi_ok (envAt 24) _ 2 (by decide)
      (by intro i hi; rw [hp]; simp [envAt]; omega) (by rw [hp]; simp [envAt])]
  have hA := (C7_setup_one_scan_one_red_blink_per_failed_connect (envAt 24) World.boot hboot).1
    1 2 (by decide) h0 h1
  have hB := (C7_setup_one_scan_one_red_blink_per_failed_connect envNever World.boot hboot).2
    (all_connect_calls_fail_of_never envNever World.boot (fun _ => rfl))
  exact ⟨⟨hA.1, hA.2.1, hA.2.2.1⟩, fun fuel => (hB fuel).1⟩

/-- C8: when the first call of `connectWifi` succeeds, `setup` returns after
that single call, and its events are, in this order: `M5.begin`, a solid white
frame `(0x40,0x40,0x40)`, `irsend.begin()`, a 100 ms delay, the events of the
one successful `connectWifi` call, a solid blue frame `(0x00,0x00,0x40)`, the
registration of one device named "Smart TV" with callback `tvPowerChanged`,
and `espalexa.begin()`.  No red frame is shown, and there is no scan and no
disconnect. -/
theorem C8_setup_first_connect_succeeds (env : Env) (w : World) (fuel : Nat)
    (hw : w.buf_display.length = 77) (hfuel : 0 < fuel)
    (hok : (connectWifi env (setupBoot w)).1 = true) :
    (∃ m, m < 22 ∧
      setup env fuel w
        = (true, { w with
            buf_display := solidFrame 0x00 0x00 0x40
            statusReads := w.statusReads + (m + 1)
            trace := w.trace ++
              ([Event.m5Begin true false true, Event.displaybuff (solidFrame 0x40 0x40 0x40),
                Event.irsendBegin, Event.delay 100]
               ++ connectOkEvents env m ++
               [Event.displaybuff (solidFrame 0x00 0x00 0x40),
                Event.addDevice "Smart TV" Callback.tvPowerChanged, Event.espalexaBegin]) })) ∧
    ((setup env fuel w).2.trace.drop w.trace.length).count Event.wifiModeSta = 1 ∧
    ((setup env fuel w).2.trace.drop w.trace.length).countP isAddDevice = 1 ∧
    ((setup env fuel w).2.trace.drop w.trace.length).countP isFrame = 2 ∧
    ((setup env fuel w).2.trace.drop w.trace.length).count
        (Event.displaybuff (solidFrame 0x40 0x00 0x00)) = 0 ∧
    ((setup env fuel w).2.trace.drop w.trace.length).countP isScan = 0 ∧
    ((setup env fuel w).2.trace.drop w.trace.length).count Event.wifiDisconnect = 0 := by
  rcases connectWifi_cases env (setupBoot w) with ⟨_, hc⟩ | ⟨m, hm, hlt, ht, _⟩
  · rw [hc] at hok
    simp at hok
  · have hpos : (setupBoot w).statusReads = w.statusReads := by rw [setupBoot_eq w hw]
    rw [hpos] at hlt ht
    have hset := setup_left env w 0 m fuel hw hfuel hm (by simpa using hlt) (by simpa using ht)
    have hnew : (setup env fuel w).2.trace.drop w.trace.length
        = bootEvents ++ connectOkEvents env m ++ connectedEvents := by
      rw [hset]
      dsimp only
      rw [List.drop_left]
      simp [retryEvents]
    have hmode : (connectOkEvents env m).countP (fun e => e == Event.wifiModeSta) = 1 := by
      simp only [connectOkEvents, List.countP_append,
        countP_pollEvents_zero (fun e => e == Event.wifiModeSta) m (by decide) (by decide)
          (by decide)]
      simp [connectHead]
    have hred : (connectOkEvents env m).countP
        (fun e => e == Event.displaybuff (solidFrame 0x40 0x00 0x00)) = 0 :=
      countP_connectOkEvents_zero env m
        (fun e => e == Event.displaybuff (solidFrame 0x40 0x00 0x00))
        (by simp [connectHead]) (by decide) (by decide) (by decide) (by simp)
    have hdis : (connectOkEvents env m).countP (fun e => e == Event.wifiDisconnect) = 0 :=
      countP_connectOkEvents_zero env m (fun e => e == Event.wifiDisconnect)
        (by simp [connectHead]) (by decide) (by decide) (by decide) (by simp)
    rw [hnew]
    refine ⟨⟨m, hm, ?_⟩, ?_, ?_, ?_, ?_, ?_, ?_⟩
    · rw [hset]
      simp [retryEvents, bootEvents, connectedEvents]
    · show List.countP (fun e => e == Event.wifiModeSta) _ = 1
      rw [List.countP_append, List.countP_append, hmode]
      decide
    · rw [List.countP_append, List.countP_append,
        countP_connectOkEvents_zero env m isAddDevice rfl rfl rfl rfl rfl]
      rfl
    · rw [List.countP_append, List.countP_append,
        countP_connectOkEvents_zero env m isFrame rfl rfl rfl rfl rfl]
      rfl
    · show List.countP (fun e => e == Event.displaybuff (solidFrame 0x40 0x00 0x00)) _ = 0
      rw [List.countP_append, List.countP_append, hred]
      decide
    · rw [List.countP_append, List.countP_append,
        countP_connectOkEvents_zero env m isScan rfl rfl rfl rfl rfl]
      rfl
    · show List.countP (fun e => e == Event.wifiDisconnect) _ = 0
      rw [List.countP_append, List.countP_append, hdis]
      decide

theorem C8_setup_first_connect_succeeds_witness :
    ∃ m, m < 22 ∧
      setup envThird 1 World.boot
        = (true, { World.boot with
            buf_display := solidFrame 0x00 0x00 0x40
            statusReads := World.boot.statusReads + (m + 1)
            trace := World.boot.trace ++
              ([Event.m5Begin true false true, Event.displaybuff (solidFrame 0x40 0x40 0x40),
                Event.irsendBegin, Event.delay 100]
               ++ connectOkEvents envThird m ++
               [Event.displaybuff (solidFrame 0x00 0x00 0x40),
                Event.addDevice "Smart TV" Callback.tvPowerChanged, Event.espalexaBegin]) }) := by
  have hok : (connectWifi envThird (setupBoot World.boot)).1 = true := by
    have hp : (setupBoot World.boot).statusReads = 0 := rfl
    rw [connectWifi_ok envThird _ 2 (by decide)
      (by intro i hi; rw [hp]; simp [envThird]; omega) (by rw [hp]; simp [envThird])]
  exact (C8_setup_first_connect_succeeds envThird World.boot 1 (by decide) (by decide) hok).1

/-- C9 (as stated) fails: with a radio that never connects, in the one failed
round that `setup` completes within one call of `connectWifi`, the network
scan comes before the first red frame, not after the blink; the last event of
the round is the closing 100 ms delay of the blink. -/
theorem C9_counterexample_scan_precedes_red_blink :
    (setup envNever 1 World.boot).2.trace.indexOf (Event.wifiScanNetworks 0)
      < (setup envNever 1 World.boot).2.trace.indexOf
          (Event.displaybuff (solidFrame 0x40 0x00 0x00)) ∧
    (setup envNever 1 World.boot).2.trace.indexOf
        (Event.displaybuff (solidFrame 0x40 0x00 0x00))
      < (setup envNever 1 World.boot).2.trace.length ∧
    (setup envNever 1 World.boot).2.trace.getLast? = some (Event.delay 100) := by
  rw [setup_running envNever World.boot 1 (by decide) (fun _ _ => rfl)]
  decide

/-- C9 (as amended): whatever the radio answers, what `setup` has done after
any number of `connectWifi` calls is the boot part followed by some number `k`
of failed rounds and a tail; every failed round is, in this order, the failed
`connectWifi` call, then the message, `WiFi.disconnect()`, the network scan
and its listing, then the red blink of 5 cycles; the tail is empty (the next
call of `connectWifi` is still to come) or is the successful `connectWifi`
call followed by the registration.  So in each failed round the scan and its
logging come first and the red blink after them, before the next call. -/
theorem C9_setup_failed_round_scans_then_blinks_red (env : Env) (w : World) (fuel : Nat)
    (hw : w.buf_display.length = 77) :
    ∃ k tail, k ≤ fuel ∧
      (setup env fuel w).2.trace
        = w.trace ++ (bootEvents ++
            (List.range k).flatMap (fun j =>
              connectFailedEvents env 22 ++
              ([Event.serialPrintln "Cannot connect to WiFi. Please check data and reset the ESP.",
                Event.wifiDisconnect, Event.wifiScanNetworks (env.scanNetworks (w.scans + j))]
                ++ scanListing (env.scanNetworks (w.scans + j))) ++
              (List.replicate 5
                [Event.displaybuff (solidFrame 0x40 0x00 0x00), Event.delay 500,
                 Event.displaybuff (solidFrame 0x00 0x00 0x00), Event.delay 100]).flatten)
            ++ tail) ∧
      (((setup env fuel w).1 = false ∧ k = fuel ∧ tail = []) ∨
       ((setup env fuel w).1 = true ∧ k < fuel ∧
          ∃ m, m < 22 ∧ tail = connectOkEvents env m ++ connectedEvents)) := by
  rcases setup_cases env w fuel hw with h | ⟨k, m, hk, hm, h⟩
  · refine ⟨fuel, [], le_refl _, ?_, Or.inl ⟨by rw [h], rfl, rfl⟩⟩
    rw [h, List.append_nil]
    dsimp only
    rw [retryEvents_eq_flatMap]
    rfl
  · refine ⟨k, connectOkEvents env m ++ connectedEvents, Nat.le_of_lt hk, ?_,
      Or.inr ⟨by rw [h], hk, m, hm, rfl⟩⟩
    rw [h]
    dsimp only
    rw [retryEvents_eq_flatMap, List.append_assoc (bootEvents ++ _)]
    rfl

theorem C9_setup_failed_round_scans_then_blinks_red_witness :
    ∃ k tail, k ≤ 1 ∧
      (setup envNever 1 World.boot).2.trace
        = World.boot.trace ++ (bootEvents ++
            (List.range k).flatMap (fun j =>
              connectFailedEvents envNever 22 ++
              ([Event.serialPrintln "Cannot connect to WiFi. Please check data and reset the ESP.",
                Event.wifiDisconnect,
                Event.wifiScanNetworks (envNever.scanNetworks (World.boot.scans + j))]
                ++ scanListing (envNever.scanNetworks (World.boot.scans + j))) ++
              (List.replicate 5
                [Event.displaybuff (solidFrame 0x40 0x00 0x00), Event.delay 500,
                 Event.displaybuff (solidFrame 0x00 0x00 0x00), Event.delay 100]).flatten)
            ++ tail) := by
  obtain ⟨k, tail, hk, h, _⟩ :=
    C9_setup_failed_round_scans_then_blinks_red envNever World.boot 1 (by decide)
  exact ⟨k, tail, hk, h⟩

/-- C10: once `setup` has returned, the frame last written to the display is
solid blue (header `0x05, 0x05`, every cell `(0x00,0x00,0x40)`), and so is
`buf_display`; this is again so after every call of `tvPowerChanged`, for
every sequence of calls with null, false-valued or true-valued devices, and
after every round of `loop`. -/
theorem C10_steady_state_last_frame_is_blue (env : Env) (w : World) (fuel : Nat)
    (hw : w.buf_display.length = 77) (hdone : (setup env fuel w).1 = true) :
    (∀ ds : List (Option EspalexaDevice),
      lastFrame (runCallbacks ds (setup env fuel w).2).trace
        = some (0x05 :: 0x05 :: (List.replicate 25 [0x00, 0x00, 0x40]).flatten) ∧
      (runCallbacks ds (setup env fuel w).2).buf_display
        = 0x05 :: 0x05 :: (List.replicate 25 [0x00, 0x00, 0x40]).flatten) ∧
    (∀ rounds : List (List (Option EspalexaDevice)),
      lastFrame (runLoops rounds (setup env fuel w).2).trace
        = some (0x05 :: 0x05 :: (List.replicate 25 [0x00, 0x00, 0x40]).flatten)) := by
  have hinv : (setup env fuel w).2.buf_display = solidFrame 0x00 0x00 0x40 ∧
      lastFrame (setup env fuel w).2.trace = some (solidFrame 0x00 0x00 0x40) := by
    rcases setup_cases env w fuel hw with h | ⟨k, m, _, _, h⟩
    · rw [h] at hdone
      simp at hdone
    · rw [h]
      refine ⟨rfl, ?_⟩
      dsimp only
      rw [lastFrame_append, lastFrame_append]
      rfl
  constructor
  · intro ds
    obtain ⟨h1, h2⟩ := runCallbacks_keeps_blue ds _ hinv.1 hinv.2
    exact ⟨h2, h1⟩
  · intro rounds
    exact (runLoops_keeps_blue rounds _ hinv.1 hinv.2).2

theorem C10_steady_state_last_frame_is_blue_witness :
    lastFrame (runCallbacks [some ⟨true⟩, none, some ⟨false⟩]
        (setup envThird 1 World.boot).2).trace
      = some (0x05 :: 0x05 :: (List.replicate 25 [0x00, 0x00, 0x40]).flatten) := by
  have hdone : (setup envThird 1 World.boot).1 = true := by
    rw [setup_left envThird World.boot 0 2 1 (by decide) (by decide) (by decide)
      (by intro j hj; simp [envThird, World.boot]; omega) (by simp [envThird, World.boot])]
  exact ((C10_steady_state_last_frame_is_blue envThird World.boot 1 (by decide) hdone).1
    [some ⟨true⟩, none, some ⟨false⟩]).1

end TvPowerController
